import Mathlib

/-!
Verification of the training-job orchestration servicer
(`caikit/runtime/servicers/global_train_servicer.py`).

The Python servicer is shallowly embedded below: pure helpers become Lean
functions, the exception-handling chains become total functions from the
raised exception to the escaping outcome, and the stateful executor methods
become functions returning the list of primitive process actions performed
together with the final outcome.
-/

namespace Caikit

/-- Status codes of `grpc.StatusCode` used by the servicer. -/
inductive StatusCode
  | OK
  | CANCELLED
  | UNKNOWN
  | INVALID_ARGUMENT
  | INTERNAL
  | RESOURCE_EXHAUSTED
  deriving DecidableEq, Repr

/-- Embeds `CaikitRuntimeException(status, message)`: the domain error
taxonomy carried through the runtime. -/
structure CaikitRuntimeException where
  status : StatusCode
  message : String
  deriving DecidableEq, Repr

/-- Python exceptions that can reach the servicer's `except` chains.
`cancelledError` is `concurrent.futures.CancelledError`, which derives from
`BaseException` (not `Exception`) and has no `message` attribute; `otherExc`
is any other `Exception` subclass, carrying `str(e)`. -/
inductive PyExc
  | caikit (e : CaikitRuntimeException)
  | typeError (msg : String)
  | valueError (msg : String)
  | cancelledError
  | otherExc (msg : String)
  deriving DecidableEq, Repr

/-- Tests whether a string begins with the path separator, on the character
list so that every use is kernel-computable. -/
def str_starts_with_slash (s : String) : Bool :=
  match s.data with
  | [] => false
  | c :: _ => c = '/'

/-- Tests whether a string ends with the path separator. -/
def str_ends_with_slash (s : String) : Bool :=
  match s.data.getLast? with
  | some c => c = '/'
  | none => false

/-- Embeds `os.path.join(a, b)` for POSIX paths: an absolute second
component replaces the first; otherwise the components are glued, adding a
separator unless the first is empty or already ends in one. -/
def os_path_join (a b : String) : String :=
  if str_starts_with_slash b then b
  else if a = "" then b
  else if str_ends_with_slash a then a ++ b
  else a ++ "/" ++ b

/-- Embeds `os.path.join(a, b, c)`. -/
def os_path_join3 (a b c : String) : String :=
  os_path_join (os_path_join a b) c

/-- Tests whether the first list is an initial segment of the second. -/
def leading_match : List Char → List Char → Bool
  | [], _ => true
  | _ :: _, [] => false
  | c :: cs, h :: hs => c = h && leading_match cs hs

/-- Tests whether the first list occurs contiguously inside the second. -/
def occurs_in : List Char → List Char → Bool
  | needle, [] => needle.isEmpty
  | needle, h :: hs => leading_match needle (h :: hs) || occurs_in needle hs

/-- Embeds Python's substring test `needle in haystack` on `str` values. -/
def py_str_contains (haystack needle : String) : Bool :=
  occurs_in needle.toList haystack.toList

/-- Embeds `GlobalTrainServicer._get_model_path` (lines 294-312):
when an output dir is given, the training id is looked for with Python's
substring operator `in`; when it is absent the configured default output
dir (`self.training_output_dir`) is used. -/
def get_model_path (default_output_dir : String)
    (training_output_dir : Option String)
    (model_name training_id : String) : String :=
  match training_output_dir with
  | some dir =>
      if py_str_contains dir training_id then
        os_path_join dir model_name
      else
        os_path_join3 dir training_id model_name
  | none => os_path_join3 default_output_dir training_id model_name

/-- Splits a character list on a separator character, mirroring Python's
`str.split(sep)` for a one-character separator. -/
def split_on_char (sep : Char) : List Char → List (List Char)
  | [] => [[]]
  | c :: rest =>
    let r := split_on_char sep rest
    if c = sep then [] :: r
    else
      match r with
      | [] => [[c]]
      | h :: t => (c :: h) :: t

/-- Path components of a string: the pieces between `/` separators. -/
def path_components (s : String) : List String :=
  (split_on_char '/' s.toList).map (fun l => String.mk l)

/-- Follows the words of the spec's model_path rule, which asks whether the
hint "contains training_id as a path component"; to be compared with
`get_model_path`, whose membership test is a substring test. -/
def get_model_path_by_component (default_output_dir : String)
    (training_output_dir : Option String)
    (model_name training_id : String) : String :=
  match training_output_dir with
  | some dir =>
      if (path_components dir).contains training_id then
        os_path_join dir model_name
      else
        os_path_join3 dir training_id model_name
  | none => os_path_join3 default_output_dir training_id model_name

/-- What escapes the `try`/`except` chain of `GlobalTrainServicer.Train`:
either an exception propagates (raw or reclassified), or the `except`
handler itself fails with a fresh error before re-raising anything. -/
inductive TrainExcResult
  | raised (e : PyExc)
  | handler_error (msg : String)
  deriving DecidableEq, Repr

/-- Embeds the `except` chain of `GlobalTrainServicer.Train`
(lines 164-205). A `CaikitRuntimeException` is logged and re-raised
unchanged. The dedicated `except concurrent.futures.CancelledError`
handler (lines 173-180) reads `err.message` and `err.id`, attributes a
`CancelledError` does not have, so the handler itself raises an
`AttributeError` (and its `raise e` line names an unbound variable), and
the classification never happens. `TypeError`/`ValueError` are
reclassified to INVALID_ARGUMENT, every other `Exception` to INTERNAL
with the fixed message "Unhandled exception during training". -/
def train_handle_exc (e : PyExc) : TrainExcResult :=
  match e with
  | PyExc.caikit ce => TrainExcResult.raised (PyExc.caikit ce)
  | PyExc.cancelledError =>
      TrainExcResult.handler_error
        "AttributeError: CancelledError object has no attribute message"
  | PyExc.typeError m =>
      TrainExcResult.raised (PyExc.caikit
        ⟨StatusCode.INVALID_ARGUMENT,
         "Exception raised during inference. This may be a problem with your input: " ++ m⟩)
  | PyExc.valueError m =>
      TrainExcResult.raised (PyExc.caikit
        ⟨StatusCode.INVALID_ARGUMENT,
         "Exception raised during inference. This may be a problem with your input: " ++ m⟩)
  | PyExc.otherExc _ =>
      TrainExcResult.raised (PyExc.caikit
        ⟨StatusCode.INTERNAL, "Unhandled exception during training"⟩)

/-- Embeds the `except` chain of
`LocalTrainSaveExecutor.train_and_save_model` (lines 383-417), mapping the
exception raised by train or save to the exception seen by the caller.
`CancelledError` derives from `BaseException`, so the final
`except Exception` clause does not catch it and it escapes unchanged. -/
def local_train_handle_exc (e : PyExc) : PyExc :=
  match e with
  | PyExc.caikit _ => e
  | PyExc.typeError m =>
      PyExc.caikit ⟨StatusCode.INVALID_ARGUMENT,
        "Exception raised during training. This may be a problem with your input: " ++ m⟩
  | PyExc.valueError m =>
      PyExc.caikit ⟨StatusCode.INVALID_ARGUMENT,
        "Exception raised during training. This may be a problem with your input: " ++ m⟩
  | PyExc.otherExc m =>
      PyExc.caikit ⟨StatusCode.INTERNAL,
        "Exception raised during training: " ++ m⟩
  | PyExc.cancelledError => e

/-- Embeds `LocalTrainSaveExecutor.cancel` (lines 419-421): the body is
only a docstring and a `TODO` comment — a no-op — so the shared event
(the cancellation token) is left exactly as it was. The argument is the
token's `is_set()` state before the call and the result its state after. -/
def local_cancel (event_is_set : Bool) : Bool :=
  event_is_set

/-- Primitive operations `SubProcessTrainSaveExecutor` performs on its
`_ErrorCaptureProcess` child. -/
inductive ProcAction
  | set_args
  | start
  | terminate
  | close
  | join
  deriving DecidableEq, Repr

/-- Embeds `SubProcessTrainSaveExecutor.cancel` (lines 500-509): terminate
the child, close (release) it, then raise CANCELLED. The code has no
branch on the child's state. -/
def subproc_cancel : List ProcAction × Except CaikitRuntimeException Unit :=
  ([ProcAction.terminate, ProcAction.close],
   Except.error ⟨StatusCode.CANCELLED, "Training request terminated"⟩)

/-- Embeds the post-join classification of
`SubProcessTrainSaveExecutor.train_and_save_model` (lines 476-498):
`self.proc.error` is checked first — a captured `CaikitRuntimeException`
is re-raised, any other captured exception raises INTERNAL — and only
when no error was captured is the exit code inspected (137 →
RESOURCE_EXHAUSTED, any other nonzero code → UNKNOWN, zero → success). -/
def subproc_join_classify (err : Option PyExc) (exitcode : Int) :
    Except CaikitRuntimeException Unit :=
  match err with
  | some (PyExc.caikit ce) => Except.error ce
  | some _ =>
      Except.error ⟨StatusCode.INTERNAL, "Error caught in training subprocess"⟩
  | none =>
      if exitcode ≠ 0 then
        if exitcode = 137 then
          Except.error ⟨StatusCode.RESOURCE_EXHAUSTED,
            "Training process died with OOM error!"⟩
        else
          Except.error ⟨StatusCode.UNKNOWN,
            "Training process died with exit code " ++ toString exitcode⟩
      else Except.ok ()

/-- Follows the words of the claim about the post-join classification
order: captured domain error first, then exit code 137, then any other
nonzero exit code, then a captured generic exception, then success. To be
compared with `subproc_join_classify`, which is read off the code. -/
def subproc_join_classify_claim (err : Option PyExc) (exitcode : Int) :
    Except CaikitRuntimeException Unit :=
  match err with
  | some (PyExc.caikit ce) => Except.error ce
  | _ =>
      if exitcode = 137 then
        Except.error ⟨StatusCode.RESOURCE_EXHAUSTED,
          "Training process died with OOM error!"⟩
      else if exitcode ≠ 0 then
        Except.error ⟨StatusCode.UNKNOWN,
          "Training process died with exit code " ++ toString exitcode⟩
      else
        match err with
        | some _ =>
            Except.error ⟨StatusCode.INTERNAL,
              "Error caught in training subprocess"⟩
        | none => Except.ok ()

/-- Embeds `SubProcessTrainSaveExecutor.train_and_save_model`
(lines 464-498) as the trace of actions on the child process plus the
outcome. The code first assigns the args and starts the child; only then
does it test the event, and when the event is set it calls `cancel`
(which raises CANCELLED, so `join` and the post-join classification are
never reached). On the uncancelled path it joins and classifies via
`subproc_join_classify`, with the captured error and exit code of the
joined child supplied as parameters. -/
def subproc_train_and_save_model (event_is_set : Bool) (err : Option PyExc)
    (exitcode : Int) : List ProcAction × Except CaikitRuntimeException Unit :=
  if event_is_set then
    ([ProcAction.set_args, ProcAction.start] ++ subproc_cancel.1,
     subproc_cancel.2)
  else
    ([ProcAction.set_args, ProcAction.start, ProcAction.join],
     subproc_join_classify err exitcode)

/-- Embeds the data of a registered module as the fallback scan of
`Train` uses it: `module_path` is `mod.__module__.split(".")` and `name`
is `mod.__name__`. -/
structure ModInfo where
  module_path : List String
  name : String
  deriving DecidableEq, Repr

/-- Modelled from the spec: `snake_to_upper_camel` lives in
`caikit/runtime/utils/servicer_util.py`, which is not among the shown
sources. The spec calls the fallback a "canonical-name match", and the
helper's name says it turns a snake_case string into UpperCamelCase, so
it is modeled as Python-style `capitalize` (first character upper, rest
lower) of each underscore-separated word, concatenated. -/
def snake_to_upper_camel (s : String) : String :=
  String.mk (((split_on_char '_' s.toList).map
    (fun w =>
      match w with
      | [] => []
      | c :: rest => c.toUpper :: rest.map Char.toLower)).flatten)

/-- Embeds the canonical request name computed for a registered module in
the fallback loop of `Train` (lines 138-142):
`snake_to_upper_camel(f"{module_split[1]}_{module_split[2]}_{mod.__name__}")`.
Out-of-range indexing is modeled as the empty string. -/
def train_request_for_mod (mod : ModInfo) : String :=
  snake_to_upper_camel
    (mod.module_path.getD 1 "" ++ "_" ++ mod.module_path.getD 2 "" ++ "_"
      ++ mod.name)

/-- Embeds the module-resolution phase of `Train` (lines 126-145) after
the `TrainRequest` suffix has been stripped from the descriptor name. The
primary strategy — a dynamic import derived from the split descriptor
name — is external, so its result arrives as an `Option`; when it failed,
the fallback scans the module registry in order for the first module
whose canonical request name matches. -/
def train_resolve_module (primary : Option ModInfo) (registry : List ModInfo)
    (desc_name : String) : Option ModInfo :=
  match primary with
  | some m => some m
  | none => registry.find? (fun mod => train_request_for_mod mod == desc_name)

/-- Embeds the "module is still None" check of `Train` (lines 147-153):
an unresolvable request raises
`CaikitRuntimeException(INTERNAL, "Global Train not able to parse module
for this Train Request")`; a resolved module proceeds. The raised
exception then passes unchanged through the `except CaikitRuntimeException`
clause of the same method. -/
def train_module_phase (primary : Option ModInfo) (registry : List ModInfo)
    (desc_name : String) : Except CaikitRuntimeException ModInfo :=
  match train_resolve_module primary registry desc_name with
  | some m => Except.ok m
  | none =>
      Except.error ⟨StatusCode.INTERNAL,
        "Global Train not able to parse module for this Train Request"⟩

/-- Embeds `caikit.interfaces.runtime.data_model.TrainingJob`. -/
structure TrainingJob where
  model_name : String
  training_id : String
  deriving DecidableEq, Repr

/-- Stands for the model object returned by the Model Manager's
`retrieve_model`. -/
structure LoadedModel where
  name : String
  deriving DecidableEq, Repr

/-- Steps the submitted unit of work can perform: the executor's
train-and-save call and the Model Manager load
(`GlobalTrainServicer._load_trained_model`, which calls
`load_model` once and returns `retrieve_model`). -/
inductive JobAction
  | train_and_save
  | load_model
  deriving DecidableEq, Repr

/-- Embeds the target closure built by `GlobalTrainServicer.run_async`
(lines 272-292) as the trace of job actions plus the job's outcome. With
`auto_load_trained_model` set, the closure runs the executor's
train-and-save and then, only when it returned without raising, calls
`_load_trained_model(model_name, model_path)`, whose own failure fails
the job; with the flag clear, the submitted target is the executor's
train-and-save alone. The train and load outcomes arrive as parameters. -/
def run_async_target (auto_load_trained_model : Bool)
    (train_result : Except PyExc Unit)
    (load_result : Except PyExc LoadedModel) :
    List JobAction × Except PyExc (Option LoadedModel) :=
  if auto_load_trained_model then
    match train_result with
    | Except.error e => ([JobAction.train_and_save], Except.error e)
    | Except.ok _ =>
        match load_result with
        | Except.error e =>
            ([JobAction.train_and_save, JobAction.load_model], Except.error e)
        | Except.ok m =>
            ([JobAction.train_and_save, JobAction.load_model],
             Except.ok (some m))
  else
    match train_result with
    | Except.error e => ([JobAction.train_and_save], Except.error e)
    | Except.ok _ => ([JobAction.train_and_save], Except.ok none)

/-- Embeds the registry bookkeeping of
`GlobalTrainServicer.run_training_job` (lines 207-270). The submitted
future's eventual outcome stands in for the handle; the assignment
`self.training_map[training_id] = thread_future` is modeled as a cons
onto the association list. The insertion happens unconditionally, before
the optional wait; when `wait` is true the caller blocks on
`thread_future.result()`, which re-raises the job's error, and no path
ever removes the entry. -/
def run_training_job (training_map : List (String × Except PyExc Unit))
    (model_name training_id : String) (outcome : Except PyExc Unit)
    (wait : Bool) :
    List (String × Except PyExc Unit) × Except PyExc TrainingJob :=
  let map2 := (training_id, outcome) :: training_map
  if wait then
    match outcome with
    | Except.error e => (map2, Except.error e)
    | Except.ok _ => (map2, Except.ok ⟨model_name, training_id⟩)
  else (map2, Except.ok ⟨model_name, training_id⟩)

/-- Decidable equality for `Except`, so that outcomes of the embedded
operations can be compared by `decide`. -/
instance {ε α : Type} [DecidableEq ε] [DecidableEq α] :
    DecidableEq (Except ε α) := fun a b =>
  match a, b with
  | Except.error x, Except.error y =>
      if h : x = y then Decidable.isTrue (by rw [h])
      else Decidable.isFalse (fun hc => h (by injection hc))
  | Except.error _, Except.ok _ =>
      Decidable.isFalse (fun hc => Except.noConfusion hc)
  | Except.ok _, Except.error _ =>
      Decidable.isFalse (fun hc => Except.noConfusion hc)
  | Except.ok x, Except.ok y =>
      if h : x = y then Decidable.isTrue (by rw [h])
      else Decidable.isFalse (fun hc => h (by injection hc))

/-! Helper lemmas about the path-joining embedding. -/

/-- Characters of a nonempty string form a nonempty list. -/
theorem data_ne_nil_of_ne_empty {s : String} (h : s ≠ "") : s.data ≠ [] :=
  fun hd => h (String.ext (by rw [hd]))

/-- Appending a nonempty string yields a nonempty string. -/
theorem append_ne_empty (a b : String) (hb : b ≠ "") : a ++ b ≠ "" := by
  intro h
  have hd := congrArg String.data h
  rw [String.data_append] at hd
  rcases List.append_eq_nil.mp hd with ⟨_, hb2⟩
  exact data_ne_nil_of_ne_empty hb hb2

/-- The trailing separator test of an append with a nonempty second part
only looks at the second part. -/
theorem str_ends_with_slash_append (a b : String) (hb : b ≠ "") :
    str_ends_with_slash (a ++ b) = str_ends_with_slash b := by
  unfold str_ends_with_slash
  rw [String.data_append,
    List.getLast?_append_of_ne_nil _ (data_ne_nil_of_ne_empty hb)]

/-- When the second component is relative and the first is nonempty without
a trailing separator, `os.path.join` is concatenation with a separator. -/
theorem os_path_join_eq (a b : String)
    (hb : str_starts_with_slash b = false)
    (ha : a ≠ "") (hae : str_ends_with_slash a = false) :
    os_path_join a b = a ++ "/" ++ b := by
  simp [os_path_join, hb, ha, hae]

/-- The three-component join under the same side conditions. -/
theorem os_path_join3_eq (a b c : String)
    (ha : a ≠ "") (hae : str_ends_with_slash a = false)
    (hbs : str_starts_with_slash b = false) (hb : b ≠ "")
    (hbe : str_ends_with_slash b = false)
    (hcs : str_starts_with_slash c = false) :
    os_path_join3 a b c = a ++ "/" ++ b ++ "/" ++ c := by
  unfold os_path_join3
  rw [os_path_join_eq a b hbs ha hae]
  exact os_path_join_eq (a ++ "/" ++ b) c hcs
    (append_ne_empty (a ++ "/") b hb)
    ((str_ends_with_slash_append (a ++ "/") b hb).trans hbe)

/-! Claims. -/

/-- Claim C1 (counterexample): the claim's three-branch rule tests whether
the hint contains the training id "as a path component", but the code's
membership test is Python's substring operator, and the two disagree: with
hint `/xabc` and training id `abc`, the id is a substring of the hint but
not one of its path components, so the code returns `/xabc/m` where the
claimed rule returns `/xabc/abc/m`. -/
theorem model_path_component_rule_counterexample :
    get_model_path "/out" (some "/xabc") "m" "abc" ≠
      get_model_path_by_component "/out" (some "/xabc") "m" "abc" := by
  decide

/-- Claim C1 (amended): the model path follows the three-branch rule with
substring containment: no hint → `default/training_id/model_name`; hint
containing the training id as a substring → `hint/model_name`; hint not
containing it → `hint/training_id/model_name`. The side conditions say the
pieces are nonempty, relative, and free of trailing separators, so the
joins are plain separator-concatenation. -/
theorem model_path_substring_rule (d hint m i : String)
    (hdn : d ≠ "") (hde : str_ends_with_slash d = false)
    (hhn : hint ≠ "") (hhe : str_ends_with_slash hint = false)
    (hin : i ≠ "") (his : str_starts_with_slash i = false)
    (hie : str_ends_with_slash i = false)
    (hms : str_starts_with_slash m = false) :
    get_model_path d none m i = d ++ "/" ++ i ++ "/" ++ m ∧
    (py_str_contains hint i = true →
      get_model_path d (some hint) m i = hint ++ "/" ++ m) ∧
    (py_str_contains hint i = false →
      get_model_path d (some hint) m i = hint ++ "/" ++ i ++ "/" ++ m) := by
  refine ⟨?_, ?_, ?_⟩
  · exact os_path_join3_eq d i m hdn hde his hin hie hms
  · intro hc
    show (if py_str_contains hint i = true then os_path_join hint m
      else os_path_join3 hint i m) = _
    rw [hc, if_pos rfl]
    exact os_path_join_eq hint m hms hhn hhe
  · intro hc
    show (if py_str_contains hint i = true then os_path_join hint m
      else os_path_join3 hint i m) = _
    rw [hc, if_neg (fun hcontra => Bool.noConfusion hcontra)]
    exact os_path_join3_eq hint i m hhn hhe his hin hie hms

/-- Claim C1 (witness): the three branches of the amended rule at concrete
inputs. -/
theorem model_path_substring_rule_witness :
    get_model_path "/out" none "m" "id1" = "/out" ++ "/" ++ "id1" ++ "/" ++ "m" ∧
    py_str_contains "/h/id1" "id1" = true ∧
    get_model_path "/out" (some "/h/id1") "m" "id1" = "/h/id1" ++ "/" ++ "m" ∧
    py_str_contains "/h" "id1" = false ∧
    get_model_path "/out" (some "/h") "m" "id1" =
      "/h" ++ "/" ++ "id1" ++ "/" ++ "m" := by
  have h1 := model_path_substring_rule "/out" "/h/id1" "m" "id1"
    (by decide) (by decide) (by decide) (by decide) (by decide) (by decide)
    (by decide) (by decide)
  have h2 := model_path_substring_rule "/out" "/h" "m" "id1"
    (by decide) (by decide) (by decide) (by decide) (by decide) (by decide)
    (by decide) (by decide)
  exact ⟨h1.1, by decide, h1.2.1 (by decide), by decide, h2.2.2 (by decide)⟩

/-- Claim C2 (counterexample): the claim orders the post-join checks as
domain error, exit code 137, other nonzero exit, captured generic
exception; the code checks any captured error before the exit code, so
with a captured generic exception and exit code 137 the code raises
INTERNAL where the claimed order raises RESOURCE_EXHAUSTED. -/
theorem subproc_classify_order_counterexample :
    subproc_join_classify (some (PyExc.otherExc "boom")) 137 ≠
      subproc_join_classify_claim (some (PyExc.otherExc "boom")) 137 := by
  decide

/-- Claim C2 (amended): after the join the outcome is classified in this
priority order — a captured domain-taxonomy error is re-raised unchanged;
else any other captured exception raises INTERNAL ("Error caught in
training subprocess"); else exit code 137 raises RESOURCE_EXHAUSTED; else
any other nonzero exit code raises UNKNOWN; else the call succeeds. -/
theorem subproc_classify_order_amended :
    (∀ (ce : CaikitRuntimeException) (ec : Int),
      subproc_join_classify (some (PyExc.caikit ce)) ec = Except.error ce) ∧
    (∀ (e : PyExc) (ec : Int), (∀ ce, e ≠ PyExc.caikit ce) →
      subproc_join_classify (some e) ec =
        Except.error ⟨StatusCode.INTERNAL,
          "Error caught in training subprocess"⟩) ∧
    (subproc_join_classify none 137 =
      Except.error ⟨StatusCode.RESOURCE_EXHAUSTED,
        "Training process died with OOM error!"⟩) ∧
    (∀ ec : Int, ec ≠ 0 → ec ≠ 137 →
      subproc_join_classify none ec =
        Except.error ⟨StatusCode.UNKNOWN,
          "Training process died with exit code " ++ toString ec⟩) ∧
    (subproc_join_classify none 0 = Except.ok ()) := by
  refine ⟨fun ce ec => rfl, ?_, by decide, ?_, by decide⟩
  · intro e ec h
    cases e with
    | caikit ce => exact absurd rfl (h ce)
    | typeError m => rfl
    | valueError m => rfl
    | cancelledError => rfl
    | otherExc m => rfl
  · intro ec h0 h137
    simp [subproc_join_classify, h0, h137]

/-- Claim C2 (witness): the amended order at concrete inputs — a captured
generic error beats exit code 137, and exit code 3 raises UNKNOWN. -/
theorem subproc_classify_order_amended_witness :
    subproc_join_classify (some (PyExc.otherExc "boom")) 137 =
      Except.error ⟨StatusCode.INTERNAL,
        "Error caught in training subprocess"⟩ ∧
    subproc_join_classify none 3 =
      Except.error ⟨StatusCode.UNKNOWN,
        "Training process died with exit code " ++ toString (3 : Int)⟩ :=
  ⟨subproc_classify_order_amended.2.1 (PyExc.otherExc "boom") 137
      (fun _ hc => PyExc.noConfusion hc),
   subproc_classify_order_amended.2.2.2.1 3 (by decide) (by decide)⟩

/-- Claim C3 (counterexample): a `CancelledError` escaping the `Train`
body is not reclassified to INTERNAL "unhandled exception during
training": the dedicated handler reads attributes the exception does not
have, so the handler itself errors out and nothing is classified. -/
theorem train_cancelled_error_counterexample :
    train_handle_exc PyExc.cancelledError =
      TrainExcResult.handler_error
        "AttributeError: CancelledError object has no attribute message" ∧
    train_handle_exc PyExc.cancelledError ≠
      TrainExcResult.raised (PyExc.caikit
        ⟨StatusCode.INTERNAL, "unhandled exception during training"⟩) :=
  ⟨rfl, by decide⟩

/-- Claim C3 (amended): for failures escaping `Train`, a domain-taxonomy
error propagates unchanged; `TypeError`/`ValueError` reclassify to
INVALID_ARGUMENT; any other `Exception` reclassifies to INTERNAL with
message "Unhandled exception during training"; a `CancelledError` instead
makes the broken dedicated handler raise a fresh, unclassified error. -/
theorem train_error_policy_amended (ce : CaikitRuntimeException) (m : String) :
    train_handle_exc (PyExc.caikit ce) =
      TrainExcResult.raised (PyExc.caikit ce) ∧
    train_handle_exc (PyExc.typeError m) =
      TrainExcResult.raised (PyExc.caikit ⟨StatusCode.INVALID_ARGUMENT,
        "Exception raised during inference. This may be a problem with your input: "
          ++ m⟩) ∧
    train_handle_exc (PyExc.valueError m) =
      TrainExcResult.raised (PyExc.caikit ⟨StatusCode.INVALID_ARGUMENT,
        "Exception raised during inference. This may be a problem with your input: "
          ++ m⟩) ∧
    train_handle_exc (PyExc.otherExc m) =
      TrainExcResult.raised (PyExc.caikit
        ⟨StatusCode.INTERNAL, "Unhandled exception during training"⟩) ∧
    train_handle_exc PyExc.cancelledError =
      TrainExcResult.handler_error
        "AttributeError: CancelledError object has no attribute message" :=
  ⟨rfl, rfl, rfl, rfl, rfl⟩

/-- Claim C4 (counterexample): with the token already set, the child
process is still started — `start` appears in the executor's action trace
— so the training is not prevented from beginning. -/
theorem subproc_start_despite_token_counterexample :
    ProcAction.start ∈ (subproc_train_and_save_model true none 0).1 := by
  decide

/-- Claim C4 (amended): when the token is already set at the moment
execution starts, the child process is started and then `cancel()` runs
immediately — terminating and closing the fresh child and raising
CANCELLED — and the join (and its outcome classification) is never
reached. -/
theorem subproc_token_set_cancels_after_start (err : Option PyExc) (ec : Int) :
    (subproc_train_and_save_model true err ec).1 =
      [ProcAction.set_args, ProcAction.start] ++ subproc_cancel.1 ∧
    (subproc_train_and_save_model true err ec).2 = subproc_cancel.2 ∧
    ProcAction.join ∉ (subproc_train_and_save_model true err ec).1 := by
  refine ⟨rfl, rfl, ?_⟩
  show ProcAction.join ∉ ([ProcAction.set_args, ProcAction.start] ++ subproc_cancel.1)
  decide

/-- Claim C5: the subprocess executor's `cancel()` has no branch on the
child's state: it always terminates then closes the child and raises
CANCELLED; in particular the mid-training invocation (token observed set
after start) ends with that same CANCELLED error. -/
theorem subproc_cancel_terminates_then_raises_cancelled :
    subproc_cancel.1 = [ProcAction.terminate, ProcAction.close] ∧
    subproc_cancel.2 =
      Except.error ⟨StatusCode.CANCELLED, "Training request terminated"⟩ ∧
    (∀ (err : Option PyExc) (ec : Int),
      (subproc_train_and_save_model true err ec).2 =
        Except.error ⟨StatusCode.CANCELLED, "Training request terminated"⟩) :=
  ⟨rfl, rfl, fun _ _ => rfl⟩

/-- Claim C6: `LocalTrainSaveExecutor.cancel` is an empty stub (docstring
plus TODO), so calling it on a clear token leaves the token clear — the
claim that `is_set()` becomes true after the call fails on the code. -/
theorem local_cancel_leaves_token_clear :
    local_cancel false = false := rfl

/-- Claim C7 (counterexample): when neither resolution strategy finds a
module, the raised INTERNAL error carries the message "Global Train not
able to parse module for this Train Request", not the claimed "module not
resolvable". -/
theorem unresolvable_message_counterexample :
    train_module_phase none [] "WidgetsTaskThing" =
      Except.error ⟨StatusCode.INTERNAL,
        "Global Train not able to parse module for this Train Request"⟩ ∧
    train_module_phase none [] "WidgetsTaskThing" ≠
      Except.error ⟨StatusCode.INTERNAL, "module not resolvable"⟩ :=
  ⟨rfl, by decide⟩

/-- Claim C7 (amended): whenever the primary derivation and the fallback
catalog scan both fail to resolve the declared type, `Train` raises an
INTERNAL-classified error with message "Global Train not able to parse
module for this Train Request". -/
theorem train_unresolvable_raises_internal (primary : Option ModInfo)
    (registry : List ModInfo) (d : String)
    (h : train_resolve_module primary registry d = none) :
    train_module_phase primary registry d =
      Except.error ⟨StatusCode.INTERNAL,
        "Global Train not able to parse module for this Train Request"⟩ := by
  unfold train_module_phase
  rw [h]

/-- Claim C7 (witness): a nonempty catalog whose one module's canonical
request name does not match the descriptor, so resolution fails and the
INTERNAL error is raised. -/
theorem train_unresolvable_raises_internal_witness :
    train_resolve_module none
      [⟨["sample_lib", "blocks", "sample_task"], "SampleBlock"⟩]
      "NoSuchRequest" = none ∧
    train_module_phase none
      [⟨["sample_lib", "blocks", "sample_task"], "SampleBlock"⟩]
      "NoSuchRequest" =
      Except.error ⟨StatusCode.INTERNAL,
        "Global Train not able to parse module for this Train Request"⟩ :=
  ⟨by decide,
   train_unresolvable_raises_internal none
     [⟨["sample_lib", "blocks", "sample_task"], "SampleBlock"⟩]
     "NoSuchRequest" (by decide)⟩

/-- Claim C8: the Local executor's failure classification — a
domain-taxonomy error passes through unchanged, `TypeError`/`ValueError`
raise INVALID_ARGUMENT with the original message appended, and any other
`Exception` raises INTERNAL. -/
theorem local_executor_error_classification
    (ce : CaikitRuntimeException) (m : String) :
    local_train_handle_exc (PyExc.caikit ce) = PyExc.caikit ce ∧
    local_train_handle_exc (PyExc.typeError m) =
      PyExc.caikit ⟨StatusCode.INVALID_ARGUMENT,
        "Exception raised during training. This may be a problem with your input: "
          ++ m⟩ ∧
    local_train_handle_exc (PyExc.valueError m) =
      PyExc.caikit ⟨StatusCode.INVALID_ARGUMENT,
        "Exception raised during training. This may be a problem with your input: "
          ++ m⟩ ∧
    local_train_handle_exc (PyExc.otherExc m) =
      PyExc.caikit ⟨StatusCode.INTERNAL,
        "Exception raised during training: " ++ m⟩ :=
  ⟨rfl, rfl, rfl, rfl⟩

/-- Claim C9: with auto-load enabled, the submitted unit performs the load
exactly once and strictly after a successful train-and-save, a failing
train-and-save performs no load, a failing load fails the job, and with
auto-load disabled no load is ever performed. -/
theorem auto_load_once_after_success (tr : Except PyExc Unit)
    (ld : Except PyExc LoadedModel) (e : PyExc) :
    (run_async_target true (Except.ok ()) ld).1 =
      [JobAction.train_and_save, JobAction.load_model] ∧
    List.count JobAction.load_model
      (run_async_target true (Except.ok ()) ld).1 = 1 ∧
    List.count JobAction.load_model
      (run_async_target true (Except.error e) ld).1 = 0 ∧
    (run_async_target true (Except.ok ()) (Except.error e)).2 =
      Except.error e ∧
    List.count JobAction.load_model
      (run_async_target false tr ld).1 = 0 := by
  refine ⟨?_, ?_, rfl, rfl, ?_⟩
  · cases ld <;> rfl
  · cases ld <;> rfl
  · cases tr <;> rfl

/-- Claim C10: `run_training_job` inserts the registry entry
unconditionally, before the optional wait — the resulting registry equals
the cons of the new entry regardless of the wait flag and of the job's
outcome — and when `wait` is true and the training failed the caller gets
the error back while the entry is still in the registry. -/
theorem registry_entry_survives_failed_wait
    (map : List (String × Except PyExc Unit)) (name id : String)
    (out : Except PyExc Unit) (w : Bool) (e : PyExc) :
    (run_training_job map name id out w).1 = (id, out) :: map ∧
    (run_training_job map name id (Except.error e) true).2 =
      Except.error e ∧
    (id, Except.error e) ∈ (run_training_job map name id (Except.error e) true).1 := by
  refine ⟨?_, rfl, ?_⟩
  · cases w with
    | false => rfl
    | true => cases out <;> rfl
  · exact List.mem_cons_self _ _

end Caikit
